import Mathlib

/-!
Verification of the coordinate-extraction engine of the MAP-LINK repository.

The Python sources `map_converter.py`, `map_converter_enhanced.py` and
`map_converter_parallel.py` are shallowly embedded here.  Strings are
`List Char`; the decimal literals captured by the regular expressions are
represented exactly as rationals (`ℚ`); a Python value of type
`Optional[float]` is an `Option ℚ`, so the engine's result type
`Tuple[Optional[float], Optional[float]]` (longitude, latitude) becomes
`Option ℚ × Option ℚ` with `(none, none)` for `(None, None)`.

Each regular expression of the source is embedded as a hand-written
deterministic matcher; for every pattern of the source the greedy
interpretation used here agrees with Python's leftmost/backtracking
semantics because every quantified token class (`\d+`, `\d*`, `[^/]+`,
`[^&]+`, `\s*`) is always followed in the pattern by a character that the
class itself cannot match, so no backtracking into a quantifier can ever
succeed where the greedy parse failed.  `re.search` semantics (leftmost
match) is `searchPos`, which tries every start position from the left.

Network effects (URL resolution, HTML fetching, the places API, selenium)
are modelled by explicit oracle arguments: `none` stands for a raised /
caught network exception, `some v` for a delivered response `v`.  Where a
layer issues an outbound request, the embedded function additionally
returns the `Bool` flag recording that a request was issued.
-/

set_option maxRecDepth 10000

namespace MapLink

/-- Result type of every extraction routine: `(longitude?, latitude?)`. -/
abbrev CoordResult := Option ℚ × Option ℚ

/-- Embeds `validate_coordinates` (identical in all three source files):
latitude must lie in `[-90, 90]`, longitude in `[-180, 180]`,
otherwise `(None, None)` is returned. -/
def validate_coordinates (lng lat : ℚ) : CoordResult :=
  if -90 ≤ lat ∧ lat ≤ 90 then
    if -180 ≤ lng ∧ lng ≤ 180 then (some lng, some lat)
    else (none, none)
  else (none, none)

/-- Numeric value of a digit list, most significant first. -/
def digitsVal (ds : List Char) : Nat :=
  ds.foldl (fun n c => 10 * n + (c.toNat - 48)) 0

/-- Exact rational value of a decimal literal with integer part `ip`,
fractional part `fp` and sign `neg` (the value Python's `float()` rounds). -/
def decVal (neg : Bool) (ip fp : List Char) : ℚ :=
  let v : ℚ := (digitsVal ip : ℚ) + (digitsVal fp : ℚ) / (10 : ℚ) ^ fp.length
  if neg then -v else v

/-- Consume the optional leading `-` of `-?`. -/
def splitSign : List Char → Bool × List Char
  | '-' :: t => (true, t)
  | s => (false, s)

/-- Matcher for `-?\d+\.\d+` (mandatory decimal fraction): returns the
value and the rest of the input. -/
def matchDecReq (s : List Char) : Option (ℚ × List Char) :=
  let p := splitSign s
  let q := p.2.span Char.isDigit
  if q.1.isEmpty then none
  else
    match q.2 with
    | '.' :: s3 =>
      let r := s3.span Char.isDigit
      if r.1.isEmpty then none else some (decVal p.1 q.1 r.1, r.2)
    | _ => none

/-- Matcher for `-?\d+(?:\.\d+)?` (optional decimal fraction, no trailing
dot), as used by the parallel variant's patterns 2-5. -/
def matchDecOpt (s : List Char) : Option (ℚ × List Char) :=
  let p := splitSign s
  let q := p.2.span Char.isDigit
  if q.1.isEmpty then none
  else
    match q.2 with
    | '.' :: s3 =>
      let r := s3.span Char.isDigit
      if r.1.isEmpty then some (decVal p.1 q.1 [], q.2)
      else some (decVal p.1 q.1 r.1, r.2)
    | _ => some (decVal p.1 q.1 [], q.2)

/-- Matcher for `-?\d+\.?\d*` (optional dot, possibly trailing), as used by
rule 1 (`query=...%2C...`) of both engines; `float("12.")` is `12.0`. -/
def matchDecOptDot (s : List Char) : Option (ℚ × List Char) :=
  let p := splitSign s
  let q := p.2.span Char.isDigit
  if q.1.isEmpty then none
  else
    match q.2 with
    | '.' :: s3 =>
      let r := s3.span Char.isDigit
      some (decVal p.1 q.1 r.1, r.2)
    | _ => some (decVal p.1 q.1 [], q.2)

/-- Strip an exact literal. -/
def stripLit : List Char → List Char → Option (List Char)
  | [], s => some s
  | _ :: _, [] => none
  | c :: cs, d :: ds => if c = d then stripLit cs ds else none

/-- Strip a literal up to ASCII case (the source compiles rule 1 with
`re.IGNORECASE`). -/
def stripLitCI : List Char → List Char → Option (List Char)
  | [], s => some s
  | _ :: _, [] => none
  | c :: cs, d :: ds => if c.toLower = d.toLower then stripLitCI cs ds else none

/-- `re.search` driver: try the matcher at every start position, leftmost
match wins. -/
def searchPos (f : List Char → Option α) : List Char → Option α
  | [] => f []
  | c :: t =>
    match f (c :: t) with
    | some r => some r
    | none => searchPos f t

/-- Hexadecimal digit value. -/
def hexDigit (c : Char) : Option Nat :=
  if c.isDigit then some (c.toNat - 48)
  else if 'A' ≤ c ∧ c ≤ 'F' then some (c.toNat - 55)
  else if 'a' ≤ c ∧ c ≤ 'f' then some (c.toNat - 87)
  else none

/-- Embeds `urllib.parse.unquote` for single-byte escapes: `%XX` with two
hex digits becomes the character with that code, anything else is kept
verbatim (multi-byte UTF-8 escape sequences, which no claim exercises,
would decode to one character per byte here). -/
def unquote : List Char → List Char
  | '%' :: a :: b :: t =>
    match hexDigit a, hexDigit b with
    | some ha, some hb => Char.ofNat (16 * ha + hb) :: unquote t
    | _, _ => '%' :: unquote (a :: b :: t)
  | c :: t => c :: unquote t
  | [] => []

/-- ASCII whitespace, the characters Python's `\s` matches on ASCII text. -/
def isSpaceCh (c : Char) : Bool :=
  c = ' ' || c = '\t' || c = '\n' || c = '\r' || c = Char.ofNat 11 || c = Char.ofNat 12

/-- Matcher for the pin-marker core `@(num),(num)`, parameterized by the
numeral matcher (the `,?\d*z?` tail of the source pattern matches the
empty string and binds nothing, so it is omitted). -/
def matchAtSeg (num : List Char → Option (ℚ × List Char)) (s : List Char) :
    Option (ℚ × ℚ) :=
  match s with
  | '@' :: t =>
    (num t).bind fun p =>
      match p.2 with
      | ',' :: t2 => (num t2).map fun q => (p.1, q.1)
      | _ => none
  | _ => none

/-- Matcher for `[?&]q=(num),(num)`. -/
def matchQSeg (num : List Char → Option (ℚ × List Char)) (s : List Char) :
    Option (ℚ × ℚ) :=
  match s with
  | c :: 'q' :: '=' :: t =>
    if c = '?' ∨ c = '&' then
      (num t).bind fun p =>
        match p.2 with
        | ',' :: t2 => (num t2).map fun q => (p.1, q.1)
        | _ => none
    else none
  | _ => none

/-- Literal `/place/`. -/
def litPlace : List Char := ['/', 'p', 'l', 'a', 'c', 'e', '/']

/-- Matcher for `/place/[^/]+/@(num),(num)`. -/
def matchPlaceSeg (num : List Char → Option (ℚ × List Char)) (s : List Char) :
    Option (ℚ × ℚ) :=
  (stripLit litPlace s).bind fun t =>
    let seg := t.span (fun c => !(c = '/'))
    if seg.1.isEmpty then none
    else
      match seg.2 with
      | '/' :: '@' :: t2 =>
        (num t2).bind fun p =>
          match p.2 with
          | ',' :: t3 => (num t3).map fun q => (p.1, q.1)
          | _ => none
      | _ => none

/-- Matcher for the bare pair `(num)\s*,\s*(num)`. -/
def matchPairSeg (num : List Char → Option (ℚ × List Char)) (s : List Char) :
    Option (ℚ × ℚ) :=
  (num s).bind fun p =>
    match p.2.dropWhile isSpaceCh with
    | ',' :: t2 =>
      (num (t2.dropWhile isSpaceCh)).map fun q => (p.1, q.1)
    | _ => none

/-- Literal `query=`. -/
def litQueryEq : List Char := ['q', 'u', 'e', 'r', 'y', '=']

/-- Literal `%2C`. -/
def litPct2C : List Char := ['%', '2', 'C']

/-- Matcher for rule 1, `[?&]query=(-?\d+\.?\d*)%2C(-?\d+\.?\d*)` with
`re.IGNORECASE` (identical in the enhanced and parallel engines). -/
def matchQueryEnc (s : List Char) : Option (ℚ × ℚ) :=
  match s with
  | c :: t =>
    if c = '?' ∨ c = '&' then
      (stripLitCI litQueryEq t).bind fun t1 =>
        (matchDecOptDot t1).bind fun p =>
          (stripLitCI litPct2C p.2).bind fun t3 =>
            (matchDecOptDot t3).map fun q => (p.1, q.1)
    else none
  | [] => none

/-- Shorthand for turning a string literal into the `List Char` the
matchers consume. -/
def lit (s : String) : List Char := s.toList

/-- The four short-link / regional-redirect domains of the enhanced and
parallel `method2_url_resolution` (`goo.gl`, `maps.app.goo.gl`,
`google.co.za`, `google.com.au`). -/
def shortDomains : List (List Char) :=
  [lit (r"goo.gl"), lit (r"maps.app.goo.gl"), lit (r"google.co.za"), lit (r"google.com.au")]

/-- Is `pat` an initial segment of `s`? -/
def startsWith : List Char → List Char → Bool
  | [], _ => true
  | _ :: _, [] => false
  | c :: cs, d :: ds => c = d && startsWith cs ds

/-- Python's substring test `pat in s`. -/
def containsSub (pat : List Char) : List Char → Bool
  | [] => pat.isEmpty
  | c :: t => startsWith pat (c :: t) || containsSub pat t

/-- `any(domain in map_link for domain in [...])` of the enhanced/parallel
`method2_url_resolution`. -/
def containsShortDomain (link : List Char) : Bool :=
  shortDomains.any (fun d => containsSub d link)

/-- Response of the places text-search API, as far as the source reads it:
the `status` field and the list of `geometry.location` `(lat, lng)` pairs
of the `results` array. -/
structure ApiResponse where
  status : List Char
  results : List (ℚ × ℚ)

/-- Literal status `OK`. -/
def litOK : List Char := ['O', 'K']

/-- Matcher for `[?&]query=([^&]+)` (case-sensitive, as in `method4`). -/
def matchQueryParam (s : List Char) : Option (List Char) :=
  match s with
  | c :: t =>
    if c = '?' ∨ c = '&' then
      (stripLit litQueryEq t).bind fun t1 =>
        let g := t1.span (fun c => !(c = '&'))
        if g.1.isEmpty then none else some g.1
    else none
  | [] => none

/-- Matcher for `/place/([^/@]+)` of `method4`. -/
def matchPlaceName (s : List Char) : Option (List Char) :=
  (stripLit litPlace s).bind fun t =>
    let g := t.span (fun c => !(c = '/') && !(c = '@'))
    if g.1.isEmpty then none else some g.1

/-- Literal `/search/`. -/
def litSearch : List Char := ['/', 's', 'e', 'a', 'r', 'c', 'h', '/']

/-- Matcher for `/search/([^/@]+)` of `method4`. -/
def matchSearchName (s : List Char) : Option (List Char) :=
  (stripLit litSearch s).bind fun t =>
    let g := t.span (fun c => !(c = '/') && !(c = '@'))
    if g.1.isEmpty then none else some g.1

/-- Full-string test `^-?\d+\.?\d*,-?\d+\.?\d*$` guarding `method4`
against re-querying with text that is already a coordinate pair. -/
def isCoordPairText (q : List Char) : Bool :=
  match matchDecOptDot q with
  | some p =>
    match p.2 with
    | ',' :: t2 =>
      match matchDecOptDot t2 with
      | some r => r.2.isEmpty
      | none => false
    | _ => false
  | none => false

/-- `unquote(...).replace('+', ' ')` applied to a captured query text. -/
def replacePlus (s : List Char) : List Char :=
  s.map (fun c => if c = '+' then ' ' else c)

/-- The query-text selection of `method4_google_places_api`: a `query=`
parameter (skipped entirely when it is itself a coordinate pair), else a
`/place/` segment, else a `/search/` segment; `none` means no request is
made. -/
def extractQuery (link : List Char) : Option (List Char) :=
  match searchPos matchQueryParam link with
  | some g =>
    let q := replacePlus (unquote g)
    if isCoordPairText q then none else some q
  | none =>
    match searchPos matchPlaceName link with
    | some g => some (replacePlus (unquote g))
    | none =>
      match searchPos matchSearchName link with
      | some g => some (replacePlus (unquote g))
      | none => none

/-- Embeds `method4_google_places_api` (identical logic in the enhanced
and parallel files).  `apiKey = []` models a missing or empty key (both
falsy in Python); `resp` is the API response, `none` standing for a raised
and caught exception or malformed body.  The second component records
whether an outbound request was issued. -/
def method4_google_places_api (link : List Char) (apiKey : List Char)
    (resp : Option ApiResponse) : CoordResult × Bool :=
  if apiKey.isEmpty then ((none, none), false)
  else
    match extractQuery link with
    | none => ((none, none), false)
    | some _ =>
      match resp with
      | none => ((none, none), true)
      | some r =>
        if r.status = litOK then
          match r.results with
          | latlng :: _ => (validate_coordinates latlng.2 latlng.1, true)
          | [] => ((none, none), true)
        else ((none, none), true)

/-- Literal `"center":{"lat":` (the brace written by code point). -/
def litCenterPre : List Char :=
  [Char.ofNat 34] ++ lit (r"center") ++ [Char.ofNat 34, ':', Char.ofNat 123, Char.ofNat 34] ++
    lit (r"lat") ++ [Char.ofNat 34, ':']

/-- Literal `,"lng":`. -/
def litCenterMid : List Char :=
  [',', Char.ofNat 34] ++ lit (r"lng") ++ [Char.ofNat 34, ':']

/-- Matcher for `"center":\{"lat":(-?\d+\.\d+),"lng":(-?\d+\.\d+)\}`. -/
def matchCenterJson (s : List Char) : Option (ℚ × ℚ) :=
  (stripLit litCenterPre s).bind fun t =>
    (matchDecReq t).bind fun p =>
      (stripLit litCenterMid p.2).bind fun t2 =>
        (matchDecReq t2).bind fun q =>
          match q.2 with
          | c :: _ => if c = Char.ofNat 125 then some (p.1, q.1) else none
          | [] => none

/-- Embeds `method3_html_scraping` (identical logic in the enhanced and
parallel files).  `resp` is the GET response as `(status_code, body)`,
`none` standing for a network exception; `meta` is the pair of floats the
`BeautifulSoup` branch would read from the `og:latitude`/`og:longitude`
meta tags, `none` when the tags are missing or unreadable. -/
def method3_html_scraping (resp : Option (Nat × List Char))
    (meta : Option (ℚ × ℚ)) : CoordResult :=
  match resp with
  | none => (none, none)
  | some st =>
    if st.1 = 200 then
      match searchPos (matchAtSeg matchDecReq) st.2 with
      | some p => validate_coordinates p.2 p.1
      | none =>
        match searchPos matchCenterJson st.2 with
        | some p => validate_coordinates p.2 p.1
        | none =>
          match meta with
          | some p => validate_coordinates p.2 p.1
          | none => (none, none)
    else (none, none)

namespace Enhanced

/-- Rule 1 of `method1_regex_extraction` (enhanced):
search for `[?&]query=(-?\d+\.?\d*)%2C(-?\d+\.?\d*)`, case-insensitive. -/
def rule1 (link : List Char) : Option (ℚ × ℚ) :=
  searchPos matchQueryEnc link

/-- Rule 2 (enhanced): search for `@(-?\d+\.\d+),(-?\d+\.\d+),?\d*z?`. -/
def rule2 (link : List Char) : Option (ℚ × ℚ) :=
  searchPos (matchAtSeg matchDecReq) link

/-- Rule 3 (enhanced): search for `[?&]q=(-?\d+\.\d+),(-?\d+\.\d+)`. -/
def rule3 (link : List Char) : Option (ℚ × ℚ) :=
  searchPos (matchQSeg matchDecReq) link

/-- Rule 4 (enhanced): search for `/place/[^/]+/@(-?\d+\.\d+),(-?\d+\.\d+)`. -/
def rule4 (link : List Char) : Option (ℚ × ℚ) :=
  searchPos (matchPlaceSeg matchDecReq) link

/-- Rule 5 (enhanced): search the URL-decoded string for the first bare
pair `(-?\d+\.\d+)\s*,\s*(-?\d+\.\d+)`. -/
def rule5 (link : List Char) : Option (ℚ × ℚ) :=
  searchPos (matchPairSeg matchDecReq) (unquote link)

/-- Embeds the enhanced `method1_regex_extraction`: the five rules are
tried in order; each match is passed to `validate_coordinates` and
returned at once; rule 5 orders the two numbers by the range heuristic. -/
def method1_regex_extraction (link : List Char) : CoordResult :=
  if link.isEmpty then (none, none)
  else
    match rule1 link with
    | some p => validate_coordinates p.2 p.1
    | none =>
      match rule2 link with
      | some p => validate_coordinates p.2 p.1
      | none =>
        match rule3 link with
        | some p => validate_coordinates p.2 p.1
        | none =>
          match rule4 link with
          | some p => validate_coordinates p.2 p.1
          | none =>
            match rule5 link with
            | some p =>
              if |p.1| ≤ 90 ∧ |p.2| ≤ 180 then validate_coordinates p.2 p.1
              else if |p.2| ≤ 90 ∧ |p.1| ≤ 180 then validate_coordinates p.1 p.2
              else (none, none)
            | none => (none, none)

/-- Embeds the enhanced `method2_url_resolution`: a `requests.head`
following redirects is issued exactly when one of the four short-link /
regional domains occurs in the URL; `resolved` is the final `response.url`
(`none` for a network exception, which the source catches).  The second
component records whether a request was issued. -/
def method2_url_resolution (link : List Char) (resolved : Option (List Char)) :
    CoordResult × Bool :=
  if containsShortDomain link then
    match resolved with
    | some u => (if u ≠ link then method1_regex_extraction u else (none, none), true)
    | none => ((none, none), true)
  else ((none, none), false)

/-- Network oracle for one sequential extraction call. -/
structure NetOracle where
  resolved : Option (List Char)
  htmlResp : Option (Nat × List Char)
  metaTags : Option (ℚ × ℚ)
  apiKey : List Char
  apiResp : Option ApiResponse

/-- Embeds the enhanced `extract_coordinates_from_url`: guard on absent
input, then the four methods in order, returning the first result whose
two components are both present. -/
def extract_coordinates_from_url (link : List Char) (o : NetOracle) : CoordResult :=
  if link.isEmpty then (none, none)
  else
    let r1 := method1_regex_extraction link
    if r1.1.isSome && r1.2.isSome then r1
    else
      let r2 := (method2_url_resolution link o.resolved).1
      if r2.1.isSome && r2.2.isSome then r2
      else
        let r3 := method3_html_scraping o.htmlResp o.metaTags
        if r3.1.isSome && r3.2.isSome then r3
        else
          let r4 := (method4_google_places_api link o.apiKey o.apiResp).1
          if r4.1.isSome && r4.2.isSome then r4
          else (none, none)

/-- The extraction layers run exactly when the source's absent-input guard
`if not map_link or not isinstance(map_link, str)` does not fire; the
guard only catches falsy (empty) strings. -/
def layers_attempted (link : List Char) : Bool :=
  !link.isEmpty

end Enhanced

namespace Parallel

/-- Rule 1 of the parallel `method1_regex_extraction` (same pattern as the
enhanced rule 1). -/
def rule1 (link : List Char) : Option (ℚ × ℚ) :=
  searchPos matchQueryEnc link

/-- Rule 2 (parallel): `@(-?\d+(?:\.\d+)?),(-?\d+(?:\.\d+)?),?\d*z?` —
decimal point optional (source comment `BUG FIX #9`). -/
def rule2 (link : List Char) : Option (ℚ × ℚ) :=
  searchPos (matchAtSeg matchDecOpt) link

/-- Rule 3 (parallel): `[?&]q=(-?\d+(?:\.\d+)?),(-?\d+(?:\.\d+)?)`. -/
def rule3 (link : List Char) : Option (ℚ × ℚ) :=
  searchPos (matchQSeg matchDecOpt) link

/-- Rule 4 (parallel): `/place/[^/]+/@(-?\d+(?:\.\d+)?),(-?\d+(?:\.\d+)?)`. -/
def rule4 (link : List Char) : Option (ℚ × ℚ) :=
  searchPos (matchPlaceSeg matchDecOpt) link

/-- Rule 5 (parallel): first bare pair
`(-?\d+(?:\.\d+)?)\s*,\s*(-?\d+(?:\.\d+)?)` in the URL-decoded string. -/
def rule5 (link : List Char) : Option (ℚ × ℚ) :=
  searchPos (matchPairSeg matchDecOpt) (unquote link)

/-- Embeds the parallel `method1_regex_extraction`. -/
def method1_regex_extraction (link : List Char) : CoordResult :=
  if link.isEmpty then (none, none)
  else
    match rule1 link with
    | some p => validate_coordinates p.2 p.1
    | none =>
      match rule2 link with
      | some p => validate_coordinates p.2 p.1
      | none =>
        match rule3 link with
        | some p => validate_coordinates p.2 p.1
        | none =>
          match rule4 link with
          | some p => validate_coordinates p.2 p.1
          | none =>
            match rule5 link with
            | some p =>
              if |p.1| ≤ 90 ∧ |p.2| ≤ 180 then validate_coordinates p.2 p.1
              else if |p.2| ≤ 90 ∧ |p.1| ≤ 180 then validate_coordinates p.1 p.2
              else (none, none)
            | none => (none, none)

/-- Embeds the parallel `method2_url_resolution` (same domain gate as the
enhanced layer, retrying the parallel pattern layer on the resolved URL). -/
def method2_url_resolution (link : List Char) (resolved : Option (List Char)) :
    CoordResult × Bool :=
  if containsShortDomain link then
    match resolved with
    | some u => (if u ≠ link then method1_regex_extraction u else (none, none), true)
    | none => ((none, none), true)
  else ((none, none), false)

/-- Embeds `method5_selenium_scraping`: the driver's final URL and the
page source (each `none` on a driver error) are searched for the strict
pin-marker pattern `@(-?\d+\.\d+),(-?\d+\.\d+)`. -/
def method5_selenium_scraping (curUrl pageSrc : Option (List Char)) : CoordResult :=
  match curUrl with
  | none => (none, none)
  | some u =>
    match searchPos (matchAtSeg matchDecReq) u with
    | some p => validate_coordinates p.2 p.1
    | none =>
      match pageSrc with
      | none => (none, none)
      | some src =>
        match searchPos (matchAtSeg matchDecReq) src with
        | some p => validate_coordinates p.2 p.1
        | none => (none, none)

/-- Network oracle for one parallel extraction call. -/
structure ParOracle where
  resolved : Option (List Char)
  htmlResp : Option (Nat × List Char)
  metaTags : Option (ℚ × ℚ)
  apiKey : List Char
  apiResp : Option ApiResponse
  selUrl : Option (List Char)
  selPage : Option (List Char)

/-- The per-method result dictionary built by `extract_coordinates_parallel`. -/
structure MethodResults where
  method1 : CoordResult
  method2 : CoordResult
  method3 : CoordResult
  method4 : CoordResult
  method5 : CoordResult

/-- The initial all-absent dictionary. -/
def allNone : MethodResults :=
  ⟨(none, none), (none, none), (none, none), (none, none), (none, none)⟩

/-- Embeds `extract_coordinates_parallel`: absent input returns the
initial dictionary untouched; otherwise each method's result is recorded
(a method that times out is represented by an oracle making it return
`(none, none)`). -/
def extract_coordinates_parallel (link : List Char) (o : ParOracle) : MethodResults :=
  if link.isEmpty then allNone
  else
    ⟨method1_regex_extraction link,
     (method2_url_resolution link o.resolved).1,
     method3_html_scraping o.htmlResp o.metaTags,
     (method4_google_places_api link o.apiKey o.apiResp).1,
     method5_selenium_scraping o.selUrl o.selPage⟩

/-- The best-pair selection of the parallel `process_excel_file`:
method 1 wins when its longitude is present, else the first of methods
2-5 whose longitude is present (the loop leaves method 5's value in place
when none is); the pair is written out only when both components are
present. -/
def bestPair (r : MethodResults) : CoordResult :=
  let b :=
    if r.method1.1.isSome then r.method1
    else if r.method2.1.isSome then r.method2
    else if r.method3.1.isSome then r.method3
    else if r.method4.1.isSome then r.method4
    else r.method5
  if b.1.isSome && b.2.isSome then b else (none, none)

/-- The parallel guard `if not map_link or not isinstance(...)` likewise
only catches falsy (empty) strings. -/
def layers_attempted (link : List Char) : Bool :=
  !link.isEmpty

end Parallel

namespace Base

/-- The two shortened-URL domains of `map_converter.py`. -/
def isShortened (link : List Char) : Bool :=
  containsSub (lit (r"goo.gl")) link || containsSub (lit (r"maps.app.goo.gl")) link

/-- Embeds the shortened-URL resolution step of the base
`extract_coordinates_from_url` (lines 61-68): when a shortened domain
occurs in the link a `requests.head` is issued and the link is replaced by
the final URL; on a caught exception (`resp = none`) the original link is
kept.  The second component records whether a request was issued. -/
def resolve_step (link : List Char) (resp : Option (List Char)) :
    List Char × Bool :=
  if isShortened link then
    match resp with
    | some u => (u, true)
    | none => (link, true)
  else (link, false)

/-- Embeds the base `extract_coordinates_from_url` of `map_converter.py`:
resolve shortened URLs, then patterns `@lat,lng`, `[?&]q=lat,lng`,
`/place/.../@lat,lng`, and finally the bare pair with the full five-branch
ordering heuristic (including the last-resort branch that assumes the
first number is the latitude when both exceed 90 in absolute value). -/
def extract_coordinates_from_url (link : List Char) (resp : Option (List Char)) :
    CoordResult :=
  if link.isEmpty then (none, none)
  else
    let link1 := (resolve_step link resp).1
    match searchPos (matchAtSeg matchDecReq) link1 with
    | some p => validate_coordinates p.2 p.1
    | none =>
      match searchPos (matchQSeg matchDecReq) link1 with
      | some p => validate_coordinates p.2 p.1
      | none =>
        match searchPos (matchPlaceSeg matchDecReq) link1 with
        | some p => validate_coordinates p.2 p.1
        | none =>
          match searchPos (matchPairSeg matchDecReq) link1 with
          | some p =>
            if |p.1| ≤ 90 ∧ |p.2| ≤ 180 then validate_coordinates p.2 p.1
            else if |p.2| ≤ 90 ∧ |p.1| ≤ 180 then validate_coordinates p.1 p.2
            else if |p.1| ≤ 90 then validate_coordinates p.2 p.1
            else if |p.2| ≤ 90 then validate_coordinates p.1 p.2
            else validate_coordinates p.2 p.1
          | none => (none, none)

end Base

/-- Host (netloc) of a URL in the sense of `urllib.parse.urlparse`,
defined to state the spec's phrase "the URL's host matches a known
short-link or regional-redirect domain set": the text between `://` and
the next `/`, `?` or `#`.  The source never parses a host; this definition
follows the spec's words only. -/
def spec_hostOf : List Char → List Char
  | ':' :: '/' :: '/' :: t => t.takeWhile (fun c => !(c = '/') && !(c = '?') && !(c = '#'))
  | _ :: t => spec_hostOf t
  | [] => []

/-- A string consisting only of whitespace characters (the inputs the spec
calls "whitespace-only"). -/
def whitespaceOnly (l : List Char) : Bool :=
  !l.isEmpty && l.all isSpaceCh

/-- The paired-and-bounded result invariant: either both components are
absent, or both are present and within Earth-coordinate bounds. -/
def GoodResult (r : CoordResult) : Prop :=
  r = (none, none) ∨ ∃ lng lat : ℚ, r = (some lng, some lat) ∧
    -90 ≤ lat ∧ lat ≤ 90 ∧ -180 ≤ lng ∧ lng ≤ 180

theorem validate_good (lng lat : ℚ) : GoodResult (validate_coordinates lng lat) := by
  unfold validate_coordinates GoodResult
  split_ifs with h1 h2
  · exact Or.inr ⟨lng, lat, rfl, h1.1, h1.2, h2.1, h2.2⟩
  · exact Or.inl rfl
  · exact Or.inl rfl

theorem method1_enh_good (link : List Char) :
    GoodResult (Enhanced.method1_regex_extraction link) := by
  unfold Enhanced.method1_regex_extraction
  repeat' split
  all_goals first
    | exact validate_good _ _
    | exact Or.inl rfl

theorem method1_par_good (link : List Char) :
    GoodResult (Parallel.method1_regex_extraction link) := by
  unfold Parallel.method1_regex_extraction
  repeat' split
  all_goals first
    | exact validate_good _ _
    | exact Or.inl rfl

theorem method2_enh_good (link : List Char) (resolved : Option (List Char)) :
    GoodResult (Enhanced.method2_url_resolution link resolved).1 := by
  unfold Enhanced.method2_url_resolution
  repeat' split
  all_goals first
    | exact method1_enh_good _
    | exact Or.inl rfl

theorem method3_good (resp : Option (Nat × List Char)) (meta : Option (ℚ × ℚ)) :
    GoodResult (method3_html_scraping resp meta) := by
  unfold method3_html_scraping
  repeat' split
  all_goals first
    | exact validate_good _ _
    | exact Or.inl rfl

theorem method4_good (link : List Char) (key : List Char) (resp : Option ApiResponse) :
    GoodResult (method4_google_places_api link key resp).1 := by
  unfold method4_google_places_api
  repeat' split
  all_goals first
    | exact validate_good _ _
    | exact Or.inl rfl

theorem good_step (r e : CoordResult) (hr : GoodResult r) (he : GoodResult e) :
    GoodResult (if r.1.isSome && r.2.isSome then r else e) := by
  split <;> assumption

theorem extract_enh_good (link : List Char) (o : Enhanced.NetOracle) :
    GoodResult (Enhanced.extract_coordinates_from_url link o) := by
  unfold Enhanced.extract_coordinates_from_url
  split
  · exact Or.inl rfl
  · exact good_step _ _ (method1_enh_good _) (good_step _ _ (method2_enh_good _ _)
      (good_step _ _ (method3_good _ _) (good_step _ _ (method4_good _ _ _) (Or.inl rfl))))

/-- C1: for every input string and every network behaviour, the enhanced
extraction engine `extract_coordinates_from_url` returns either a fully
present pair `(longitude, latitude)` with `-90 ≤ latitude ≤ 90` and
`-180 ≤ longitude ≤ 180` (boundaries included), or the pair
`(none, none)`; it never returns exactly one component present and never
returns a present pair outside the bounds. -/
theorem C1_extraction_invariant (link : List Char) (o : Enhanced.NetOracle) :
    Enhanced.extract_coordinates_from_url link o = (none, none) ∨
    ∃ lng lat : ℚ,
      Enhanced.extract_coordinates_from_url link o = (some lng, some lat) ∧
      -90 ≤ lat ∧ lat ≤ 90 ∧ -180 ≤ lng ∧ lng ≤ 180 :=
  extract_enh_good link o

theorem method1_enh_of_empty (link : List Char) (h : link.isEmpty = true) :
    Enhanced.method1_regex_extraction link = (none, none) := by
  unfold Enhanced.method1_regex_extraction
  simp [h]

theorem extract_enh_of_method1 (link : List Char) (o : Enhanced.NetOracle)
    (lng lat : ℚ)
    (h : Enhanced.method1_regex_extraction link = (some lng, some lat)) :
    Enhanced.extract_coordinates_from_url link o = (some lng, some lat) := by
  have hne : link.isEmpty = false := by
    cases hL : link.isEmpty
    · rfl
    · rw [method1_enh_of_empty link hL] at h
      exact absurd h (by simp)
  unfold Enhanced.extract_coordinates_from_url
  simp [hne, h]

/-- C2: the validator returns its two arguments unchanged (no rounding,
no clamping) exactly when `-90 ≤ lat ≤ 90` and `-180 ≤ lng ≤ 180`, both
boundaries inclusive, and returns `(none, none)` otherwise; in particular
the boundary input `https://maps.example/@90.0,180.0,17z` extracts to
`(180, 90)` under every network behaviour. -/
theorem C2_validator_exact :
    (∀ lng lat : ℚ, validate_coordinates lng lat =
      if (-90 ≤ lat ∧ lat ≤ 90) ∧ (-180 ≤ lng ∧ lng ≤ 180)
      then (some lng, some lat) else (none, none)) ∧
    (∀ o : Enhanced.NetOracle,
      Enhanced.extract_coordinates_from_url
        (lit (r"https://maps.example/@90.0,180.0,17z")) o = (some 180, some 90)) := by
  constructor
  · intro lng lat
    by_cases hlat : -90 ≤ lat ∧ lat ≤ 90 <;> by_cases hlng : -180 ≤ lng ∧ lng ≤ 180 <;>
      simp [validate_coordinates, hlat, hlng]
  · intro o
    exact extract_enh_of_method1 _ o 180 90 (by with_unfolding_all rfl)

/-- C3: within the enhanced pattern layer, whenever the first rule that
matches numerically produces coordinates the validator rejects, the whole
call returns `(none, none)` — no later rule is consulted (the hypotheses
say nothing about the later rules, yet the conclusion is fixed). -/
theorem C3_validator_hard_stop (link : List Char) (lat lng : ℚ) :
    (Enhanced.rule1 link = some (lat, lng) →
      validate_coordinates lng lat = (none, none) →
      Enhanced.method1_regex_extraction link = (none, none)) ∧
    (Enhanced.rule1 link = none → Enhanced.rule2 link = some (lat, lng) →
      validate_coordinates lng lat = (none, none) →
      Enhanced.method1_regex_extraction link = (none, none)) ∧
    (Enhanced.rule1 link = none → Enhanced.rule2 link = none →
      Enhanced.rule3 link = some (lat, lng) →
      validate_coordinates lng lat = (none, none) →
      Enhanced.method1_regex_extraction link = (none, none)) ∧
    (Enhanced.rule1 link = none → Enhanced.rule2 link = none →
      Enhanced.rule3 link = none → Enhanced.rule4 link = some (lat, lng) →
      validate_coordinates lng lat = (none, none) →
      Enhanced.method1_regex_extraction link = (none, none)) := by
  cases hL : link.isEmpty
  · refine ⟨?_, ?_, ?_, ?_⟩
    · intro h1 hv
      unfold Enhanced.method1_regex_extraction
      simp [hL, h1, hv]
    · intro h1 h2 hv
      unfold Enhanced.method1_regex_extraction
      simp [hL, h1, h2, hv]
    · intro h1 h2 h3 hv
      unfold Enhanced.method1_regex_extraction
      simp [hL, h1, h2, h3, hv]
    · intro h1 h2 h3 h4 hv
      unfold Enhanced.method1_regex_extraction
      simp [hL, h1, h2, h3, h4, hv]
  · refine ⟨?_, ?_, ?_, ?_⟩ <;> intros <;> exact method1_enh_of_empty link hL

/-- C3 witness: the out-of-range input of scenario 3 is matched by rule 3,
rejected by the validator, and the whole pattern layer returns absent. -/
theorem C3_witness :
    Enhanced.method1_regex_extraction (lit (r"https://maps.example/?q=999.0,28.0")) =
      (none, none) :=
  (C3_validator_hard_stop (lit (r"https://maps.example/?q=999.0,28.0")) 999 28).2.2.1
    (by with_unfolding_all rfl) (by with_unfolding_all rfl)
    (by with_unfolding_all rfl) (by with_unfolding_all rfl)

/-- C4 counterexample: the single-space input is whitespace-only, yet the
absent-input guard (`if not map_link`) does not fire for it — both
orchestrators run their extraction layers on it, contradicting the claim
that whitespace-only input is "never attempted". -/
theorem C4_counterexample :
    whitespaceOnly (lit (r" ")) = true ∧
    Enhanced.layers_attempted (lit (r" ")) = true ∧
    Parallel.layers_attempted (lit (r" ")) = true :=
  ⟨by with_unfolding_all rfl, by with_unfolding_all rfl, by with_unfolding_all rfl⟩

/-- C4 amended: for null, non-string and empty input (the inputs that are
falsy in Python; null and non-strings have no separate representation
here) both engines return the all-absent result immediately and no
extraction layer runs — for these inputs no request-issuing code is
reached.  Whitespace-only strings are not short-circuited by the engines
themselves: the guard does not fire and the layers run on them (what the
layers then do on such input is not part of this statement). -/
theorem C4_amended :
    (∀ o : Enhanced.NetOracle,
      Enhanced.extract_coordinates_from_url [] o = (none, none)) ∧
    Enhanced.layers_attempted [] = false ∧
    (∀ o : Parallel.ParOracle,
      Parallel.extract_coordinates_parallel [] o = Parallel.allNone) ∧
    Parallel.layers_attempted [] = false :=
  ⟨fun _ => rfl, rfl, fun _ => rfl, rfl⟩

/-- A network oracle in which every outbound interaction fails (all layers
behind the pattern layer come back empty). -/
def emptyOracle : Enhanced.NetOracle := ⟨none, none, none, [], none⟩

/-- The all-failing oracle for the parallel engine. -/
def emptyParOracle : Parallel.ParOracle := ⟨none, none, none, [], none, none, none⟩

/-- C5 counterexample: on `"@5,6,7z @1.5,2.5,3z"` the enhanced pattern
layer alone resolves the input (to `(2.5, 1.5)`, its rules require a
decimal fraction, so the first pin marker is skipped) and the sequential
orchestrator returns that pair; but the parallel engine's integer-capable
pattern layer matches the first pin marker, so the best-pair selection
returns `(6, 5)` — the two modes disagree. -/
theorem C5_counterexample :
    Enhanced.method1_regex_extraction (lit (r"@5,6,7z @1.5,2.5,3z")) =
      (some (5/2 : ℚ), some (3/2 : ℚ)) ∧
    Enhanced.extract_coordinates_from_url (lit (r"@5,6,7z @1.5,2.5,3z")) emptyOracle =
      (some (5/2 : ℚ), some (3/2 : ℚ)) ∧
    Parallel.bestPair
      (Parallel.extract_coordinates_parallel (lit (r"@5,6,7z @1.5,2.5,3z")) emptyParOracle) =
      (some (6 : ℚ), some (5 : ℚ)) ∧
    ((some (6 : ℚ), some (5 : ℚ)) : CoordResult) ≠ (some (5/2 : ℚ), some (3/2 : ℚ)) :=
  ⟨by with_unfolding_all rfl, by with_unfolding_all rfl, by with_unfolding_all rfl,
   by simp; intro h; norm_num at h⟩

/-- C5 amended: whenever the enhanced and the parallel pattern layers
agree on a present pair for an input, the sequential orchestrator and the
parallel best-pair selection both return that pair, independent of what
any network-backed layer returns or whether it completes. -/
theorem C5_amended (link : List Char) (lng lat : ℚ)
    (h1 : Enhanced.method1_regex_extraction link = (some lng, some lat))
    (h2 : Parallel.method1_regex_extraction link = (some lng, some lat)) :
    (∀ o : Enhanced.NetOracle,
      Enhanced.extract_coordinates_from_url link o = (some lng, some lat)) ∧
    (∀ o : Parallel.ParOracle,
      Parallel.bestPair (Parallel.extract_coordinates_parallel link o) =
        (some lng, some lat)) := by
  have hne : link.isEmpty = false := by
    cases hL : link.isEmpty
    · rfl
    · rw [method1_enh_of_empty link hL] at h1
      exact absurd h1 (by simp)
  constructor
  · intro o
    exact extract_enh_of_method1 link o lng lat h1
  · intro o
    unfold Parallel.extract_coordinates_parallel Parallel.bestPair
    simp [hne, h2]

/-- C5 witness: on a decimal-only input the two pattern layers agree and
both orchestration modes return the same pair. -/
theorem C5_witness :
    Enhanced.extract_coordinates_from_url (lit (r"@-26.1,28.05,17z")) emptyOracle =
      (some (28.05 : ℚ), some (-26.1 : ℚ)) ∧
    Parallel.bestPair
      (Parallel.extract_coordinates_parallel (lit (r"@-26.1,28.05,17z")) emptyParOracle) =
      (some (28.05 : ℚ), some (-26.1 : ℚ)) := by
  have h := C5_amended (lit (r"@-26.1,28.05,17z")) (28.05 : ℚ) (-26.1 : ℚ)
    (by with_unfolding_all rfl) (by with_unfolding_all rfl)
  exact ⟨h.1 emptyOracle, h.2 emptyParOracle⟩

theorem validate_of_bounds (lng lat : ℚ) (h1 : |lat| ≤ 90) (h2 : |lng| ≤ 180) :
    validate_coordinates lng lat = (some lng, some lat) := by
  have ha := abs_le.mp h1
  have hb := abs_le.mp h2
  unfold validate_coordinates
  rw [if_pos ⟨ha.1, ha.2⟩, if_pos ⟨hb.1, hb.2⟩]

/-- C6: in the enhanced rule 5 (first bare number pair of the decoded
string), when exactly one of the two matched numbers lies within
`[-90, 90]` and the other within `[-180, 180]`, that one becomes the
latitude and the other the longitude; when both lie within `[-90, 90]`
the first number becomes the latitude and the second the longitude. -/
theorem C6_rule5_ordering (link : List Char) (a b : ℚ)
    (h1 : Enhanced.rule1 link = none) (h2 : Enhanced.rule2 link = none)
    (h3 : Enhanced.rule3 link = none) (h4 : Enhanced.rule4 link = none)
    (h5 : Enhanced.rule5 link = some (a, b)) :
    (|a| ≤ 90 → 90 < |b| → |b| ≤ 180 →
      Enhanced.method1_regex_extraction link = (some b, some a)) ∧
    (|b| ≤ 90 → 90 < |a| → |a| ≤ 180 →
      Enhanced.method1_regex_extraction link = (some a, some b)) ∧
    (|a| ≤ 90 → |b| ≤ 90 →
      Enhanced.method1_regex_extraction link = (some b, some a)) := by
  have hne : link.isEmpty = false := by
    cases hL : link.isEmpty
    · rfl
    · have : link = [] := by
        cases link
        · rfl
        · exact absurd hL (by simp)
      have h0 : Enhanced.rule5 [] = none := by with_unfolding_all rfl
      rw [this, h0] at h5
      exact absurd h5 (by simp)
  have hred : Enhanced.method1_regex_extraction link =
      if |a| ≤ 90 ∧ |b| ≤ 180 then validate_coordinates b a
      else if |b| ≤ 90 ∧ |a| ≤ 180 then validate_coordinates a b
      else (none, none) := by
    unfold Enhanced.method1_regex_extraction
    simp [hne, h1, h2, h3, h4, h5]
  refine ⟨?_, ?_, ?_⟩
  · intro ha hb1 hb2
    rw [hred, if_pos ⟨ha, hb2⟩]
    exact validate_of_bounds b a ha hb2
  · intro hb ha1 ha2
    rw [hred, if_neg (fun hc => absurd hc.1 (not_le.mpr ha1)),
      if_pos ⟨hb, ha2⟩]
    exact validate_of_bounds a b hb ha2
  · intro ha hb
    have hb' : |b| ≤ 180 := le_trans hb (by norm_num)
    rw [hred, if_pos ⟨ha, hb'⟩]
    exact validate_of_bounds b a ha hb'

/-- C6 witness: the bare pair of scenario 6 has both numbers within
`[-90, 90]`, so the first is the latitude: the result is
`(28.0527061, -26.108204)` as `(longitude, latitude)`. -/
theorem C6_witness :
    Enhanced.method1_regex_extraction (lit (r"-26.108204,28.0527061")) =
      (some (28.0527061 : ℚ), some (-26.108204 : ℚ)) :=
  (C6_rule5_ordering (lit (r"-26.108204,28.0527061")) (-26.108204 : ℚ) (28.0527061 : ℚ)
      (by with_unfolding_all rfl) (by with_unfolding_all rfl) (by with_unfolding_all rfl)
      (by with_unfolding_all rfl) (by with_unfolding_all rfl)).2.2
    (by norm_num [abs_le]) (by norm_num [abs_le])

/-- C7 counterexample: the integer pin-marker input `"@40,74,12z"` is not
extracted by the enhanced pattern layer — its rules 2-5 require a decimal
fraction, so the layer returns `(none, none)` instead of the present pair
the claim asserts. -/
theorem C7_counterexample :
    Enhanced.method1_regex_extraction (lit (r"@40,74,12z")) = (none, none) ∧
    Enhanced.rule2 (lit (r"@40,74,12z")) = none :=
  ⟨by with_unfolding_all rfl, by with_unfolding_all rfl⟩

/-- C7 amended: only the parallel variant's rule set accepts integer
coordinate literals in every rule (`"@40,74,12z"` → `(74, 40)` via its
pin-marker rule); in the enhanced variant only rule 1 (the
percent-encoded `query=` pattern) accepts integers, as on
`"?query=40%2C74"`. -/
theorem C7_integer_literals :
    Parallel.method1_regex_extraction (lit (r"@40,74,12z")) =
      (some (74 : ℚ), some (40 : ℚ)) ∧
    Parallel.rule2 (lit (r"@40,74,12z")) = some ((40 : ℚ), (74 : ℚ)) ∧
    Enhanced.method1_regex_extraction (lit (r"?query=40%2C74")) =
      (some (74 : ℚ), some (40 : ℚ)) :=
  ⟨by with_unfolding_all rfl, by with_unfolding_all rfl, by with_unfolding_all rfl⟩

/-- C8 counterexample: the URL `https://example.com/?note=goo.gl` has host
`example.com`, which matches none of the short-link/regional domains, yet
the enhanced resolution layer issues a network request for it — the
domain gate is a substring test over the whole URL, not a host check. -/
theorem C8_counterexample :
    (Enhanced.method2_url_resolution (lit (r"https://example.com/?note=goo.gl")) none).2 =
      true ∧
    shortDomains.all
      (fun d => !(containsSub d (spec_hostOf (lit (r"https://example.com/?note=goo.gl"))))) =
      true :=
  ⟨by with_unfolding_all rfl, by with_unfolding_all rfl⟩

/-- C8 amended: the resolution layer issues its redirect-following request
exactly when one of the known short-link/regional domains occurs as a
substring anywhere in the URL; for every other URL no request is issued
and the layer is a no-op (the enhanced layer yields `(none, none)`, the
base resolver leaves the URL unchanged); on a network failure the base
resolver returns the original URL unchanged and the enhanced layer
returns `(none, none)`, so the orchestrator falls through — no exception
escapes (both layers are total functions of the oracle). -/
theorem C8_resolver_gate (link : List Char) (resp : Option (List Char)) :
    (containsShortDomain link = false →
      Enhanced.method2_url_resolution link resp = ((none, none), false)) ∧
    (Enhanced.method2_url_resolution link none).1 = (none, none) ∧
    (Enhanced.method2_url_resolution link resp).2 = containsShortDomain link ∧
    (Base.isShortened link = false → Base.resolve_step link resp = (link, false)) ∧
    Base.resolve_step link none = (link, Base.isShortened link) := by
  refine ⟨?_, ?_, ?_, ?_, ?_⟩
  · intro h
    unfold Enhanced.method2_url_resolution
    simp [h]
  · unfold Enhanced.method2_url_resolution
    split <;> rfl
  · unfold Enhanced.method2_url_resolution
    split
    · cases resp <;> simp_all
    · simp_all
  · intro h
    unfold Base.resolve_step
    simp [h]
  · unfold Base.resolve_step
    split
    · simp_all
    · simp_all

/-- C8 witness: a plain URL with no short-link domain gets no request from
either resolver and passes through unchanged. -/
theorem C8_witness :
    Enhanced.method2_url_resolution (lit (r"https://maps.example/x")) none =
      ((none, none), false) ∧
    Base.resolve_step (lit (r"https://maps.example/x")) none =
      (lit (r"https://maps.example/x"), false) := by
  have h := C8_resolver_gate (lit (r"https://maps.example/x")) none
  exact ⟨h.1 (by with_unfolding_all rfl), h.2.2.2.1 (by with_unfolding_all rfl)⟩

/-- C9: the places layer is a no-op without an API key (absent result, no
request); with a key and a query extracted from the URL, a response with
status `OK` and at least one result yields the first result's validated
location, and every response with any other status or with no results
yields `(none, none)`. -/
theorem C9_places_layer :
    (∀ (link : List Char) (resp : Option ApiResponse),
      method4_google_places_api link [] resp = ((none, none), false)) ∧
    (∀ (link key : List Char) (lat lng : ℚ) (rest : List (ℚ × ℚ)),
      key.isEmpty = false → (extractQuery link).isSome →
      (method4_google_places_api link key (some ⟨litOK, (lat, lng) :: rest⟩)).1 =
        validate_coordinates lng lat) ∧
    (∀ (link key : List Char) (r : ApiResponse),
      key.isEmpty = false → (r.status ≠ litOK ∨ r.results = []) →
      (method4_google_places_api link key (some r)).1 = (none, none)) := by
  refine ⟨?_, ?_, ?_⟩
  · intro link resp
    unfold method4_google_places_api
    rfl
  · intro link key lat lng rest hk hq
    obtain ⟨q, hq'⟩ := Option.isSome_iff_exists.mp hq
    unfold method4_google_places_api
    simp [hk, hq']
  · intro link key r hk hr
    unfold method4_google_places_api
    rw [hk]
    simp only [Bool.false_eq_true, if_false]
    cases hq : extractQuery link
    · rfl
    · rcases hr with hs | hres
      · simp [hs]
      · rcases hst : decide (r.status = litOK) with _ | _
        · simp [of_decide_eq_false hst]
        · simp [of_decide_eq_true hst, hres]

/-- C9 witness: with a key and a `/place/` query, an `OK` response with
one result returns that result's validated location. -/
theorem C9_witness :
    (method4_google_places_api (lit (r"x/place/Paris")) (lit (r"k"))
        (some ⟨litOK, [((3 : ℚ)/2, (5 : ℚ)/2)]⟩)).1 =
      (some ((5 : ℚ)/2), some ((3 : ℚ)/2)) := by
  have h := C9_places_layer.2.1 (lit (r"x/place/Paris")) (lit (r"k"))
    ((3 : ℚ)/2) ((5 : ℚ)/2) [] (by with_unfolding_all rfl) (by with_unfolding_all rfl)
  rw [h]
  with_unfolding_all rfl

/-- C10: for a bare number pair whose two numbers both exceed 90 in
absolute value, every engine's pattern layer returns `(none, none)`: the
validator always rejects such a latitude, the enhanced and parallel
rule-5 branches have no ordering for it, and the base engine's
last-resort branch forwards the first number as latitude and is always
rejected. -/
theorem C10_both_over_ninety (link : List Char) (a b : ℚ)
    (ha : 90 < |a|) (hb : 90 < |b|) :
    (∀ lng : ℚ, validate_coordinates lng a = (none, none)) ∧
    (Enhanced.rule1 link = none → Enhanced.rule2 link = none →
      Enhanced.rule3 link = none → Enhanced.rule4 link = none →
      Enhanced.rule5 link = some (a, b) →
      Enhanced.method1_regex_extraction link = (none, none)) ∧
    (Parallel.rule1 link = none → Parallel.rule2 link = none →
      Parallel.rule3 link = none → Parallel.rule4 link = none →
      Parallel.rule5 link = some (a, b) →
      Parallel.method1_regex_extraction link = (none, none)) ∧
    (∀ resp : Option (List Char), Base.isShortened link = false →
      searchPos (matchAtSeg matchDecReq) link = none →
      searchPos (matchQSeg matchDecReq) link = none →
      searchPos (matchPlaceSeg matchDecReq) link = none →
      searchPos (matchPairSeg matchDecReq) link = some (a, b) →
      Base.extract_coordinates_from_url link resp = (none, none)) := by
  have hna : ¬ |a| ≤ 90 := not_le.mpr ha
  have hnb : ¬ |b| ≤ 90 := not_le.mpr hb
  have hva : ∀ lng : ℚ, validate_coordinates lng a = (none, none) := by
    intro lng
    have := lt_abs.mp ha
    unfold validate_coordinates
    rw [if_neg (by rcases this with h | h <;> intro hc <;> [linarith [hc.2]; linarith [hc.1]])]
  have hvb : ∀ lng : ℚ, validate_coordinates lng b = (none, none) := by
    intro lng
    have := lt_abs.mp hb
    unfold validate_coordinates
    rw [if_neg (by rcases this with h | h <;> intro hc <;> [linarith [hc.2]; linarith [hc.1]])]
  refine ⟨hva, ?_, ?_, ?_⟩
  · intro h1 h2 h3 h4 h5
    cases hL : link.isEmpty
    · unfold Enhanced.method1_regex_extraction
      simp only [hL, Bool.false_eq_true, if_false, h1, h2, h3, h4, h5]
      rw [if_neg (fun hc => absurd hc.1 hna), if_neg (fun hc => absurd hc.1 hnb)]
    · exact method1_enh_of_empty link hL
  · intro h1 h2 h3 h4 h5
    cases hL : link.isEmpty
    · unfold Parallel.method1_regex_extraction
      simp only [hL, Bool.false_eq_true, if_false, h1, h2, h3, h4, h5]
      rw [if_neg (fun hc => absurd hc.1 hna), if_neg (fun hc => absurd hc.1 hnb)]
    · unfold Parallel.method1_regex_extraction
      simp [hL]
  · intro resp hs h1 h2 h3 h4
    cases hL : link.isEmpty
    · have hstep : (Base.resolve_step link resp).1 = link := by
        unfold Base.resolve_step
        simp [hs]
      unfold Base.extract_coordinates_from_url
      rw [hL]
      simp only [Bool.false_eq_true, if_false, hstep, h1, h2, h3, h4]
      rw [if_neg (fun hc => absurd hc.1 hna), if_neg (fun hc => absurd hc.1 hnb),
        if_neg hna, if_neg hnb]
      exact hva b
    · unfold Base.extract_coordinates_from_url
      simp [hL]

/-- C10 witness: the bare pair `100.5,200.5` (both numbers over 90) yields
`(none, none)` from all three engines. -/
theorem C10_witness :
    Enhanced.method1_regex_extraction (lit (r"100.5,200.5")) = (none, none) ∧
    Parallel.method1_regex_extraction (lit (r"100.5,200.5")) = (none, none) ∧
    Base.extract_coordinates_from_url (lit (r"100.5,200.5")) none = (none, none) := by
  have h := C10_both_over_ninety (lit (r"100.5,200.5")) (100.5 : ℚ) (200.5 : ℚ)
    (by norm_num [lt_abs]) (by norm_num [lt_abs])
  exact ⟨h.2.1 (by with_unfolding_all rfl) (by with_unfolding_all rfl)
      (by with_unfolding_all rfl) (by with_unfolding_all rfl) (by with_unfolding_all rfl),
    h.2.2.1 (by with_unfolding_all rfl) (by with_unfolding_all rfl)
      (by with_unfolding_all rfl) (by with_unfolding_all rfl) (by with_unfolding_all rfl),
    h.2.2.2 none (by with_unfolding_all rfl) (by with_unfolding_all rfl)
      (by with_unfolding_all rfl) (by with_unfolding_all rfl) (by with_unfolding_all rfl)⟩

end MapLink
